import Mathlib

/-!
Verification of the write-ingestion core of `beyoungV/influxdb`
(`servicesv2/write/server.go` and `pkg/data/gen/arrays.gen.go.tmpl`)
against its natural-language specification, via a shallow embedding.

External collaborators (organization / bucket / DBRP directories, the ID
parser, the line-protocol parser and the storage-write service) are
parameters of the embedded handler, mirroring the Go interfaces
`OrganizationService`, `BucketService`, `DBRPMappingServiceV2` and the
package-level `influxdb.IDFromString`.
-/

namespace Influx

/-! ## Precision normalization (`handleWrite`, server.go lines 78-99) -/

/-- The two failure points of precision validation in `handleWrite`:
the first `switch` (error message `use ns, us, ms or s`) and the second
`switch` (error message `use n, u, ms, s, m or h`). -/
inductive PrecisionError where
  | firstStage (tok : String)
  | secondStage (tok : String)
deriving DecidableEq

/-- Embedding of the precision-handling prefix of `handleWrite`
(server.go lines 78-99): the first `switch` rewrites `ns` to `n` and
`us` to `u`, lets `ms`, `s` and the empty string through, and rejects
everything else; the second `switch` re-checks the rewritten value
against the alphabet `"", n, ns, u, ms, s, m, h`. -/
def normalizePrecision (precision : String) : Except PrecisionError String :=
  let stage1 : Except PrecisionError String :=
    if precision = "ns" then Except.ok "n"
    else if precision = "us" then Except.ok "u"
    else if precision = "ms" ∨ precision = "s" ∨ precision = "" then Except.ok precision
    else Except.error (PrecisionError.firstStage precision)
  match stage1 with
  | Except.error e => Except.error e
  | Except.ok p =>
    if p = "" ∨ p = "n" ∨ p = "ns" ∨ p = "u" ∨ p = "ms" ∨ p = "s" ∨ p = "m" ∨ p = "h" then
      Except.ok p
    else
      Except.error (PrecisionError.secondStage p)

/-! ## Tenant resolution (server.go lines 101-109 and 159-240) -/

/-- Embedding of `influxdb.ID`: an opaque identifier (a 64-bit value in Go); the
claims never depend on its numeric range, so it is embedded as `Nat`. -/
abbrev ID := Nat

/-- Embedding of `influxdb.Organization`, read-only from this core. -/
structure Organization where
  id : ID
  name : String
deriving DecidableEq

/-- Embedding of `influxdb.Bucket`, read-only from this core. -/
structure Bucket where
  id : ID
  name : String
  orgID : ID
deriving DecidableEq

/-- Embedding of `influxdb.DBRPMappingV2`: a legacy (database, retention-policy)
pair translated to an (organization, bucket) pair. -/
structure DBRPMapping where
  database : String
  retentionPolicy : String
  organizationID : ID
  bucketID : ID
deriving DecidableEq

/-- Errors surfaced by tenant resolution.  Go errors are distinguished
only by `influxdb.ErrorCode` (the handler checks for `ENotFound`), so
the embedding keeps a not-found constructor apart, the ID-parse error
of `influxdb.IDFromString`, the `failed for find DBRP mapping` error
built by `findTenantV1`, and a catch-all for other service errors. -/
inductive SvcError where
  | notFound (msg : String)
  | invalidID (msg : String)
  | dbrpNotUnique (db rp : String)
  | serviceFailure (msg : String)
deriving DecidableEq

/-- The check `influxdb.ErrorCode(err) == influxdb.ENotFound` as used in `findBucket`. -/
def SvcError.isNotFound : SvcError → Bool
  | SvcError.notFound _ => true
  | _ => false

/-- Embedding of `influxdb.OrganizationFilter`. -/
structure OrganizationFilter where
  id : Option ID
  name : Option String
deriving DecidableEq

/-- Embedding of `influxdb.BucketFilter` (only the fields `findBucket` populates). -/
structure BucketFilter where
  organizationID : Option ID
  id : Option ID
  name : Option String
deriving DecidableEq

/-- Embedding of `influxdb.DBRPMappingFilterV2` (only the fields `findTenantV1` populates). -/
structure DBRPFilter where
  database : Option String
  retentionPolicy : Option String
deriving DecidableEq

/-- The query parameters of a write request.  Go's `Query().Get`
yields `""` for an absent parameter, so each field is a plain string. -/
structure Request where
  org : String
  org_id : String
  bucket : String
  db : String
  rp : String
deriving DecidableEq

/-- The external collaborators of `WriteHandler`: the organization,
bucket and DBRP directory services, and the `influxdb.IDFromString`
parser.  Each is a field so theorems quantify over their behavior. -/
structure WriteHandler where
  orgSvcFindOrganization : OrganizationFilter → Except SvcError Organization
  orgSvcFindOrganizationByID : ID → Except SvcError Organization
  bucketSvcFindBucket : BucketFilter → Except SvcError Bucket
  bucketSvcFindBucketByID : ID → Except SvcError Bucket
  dbrpSvcFindMany : DBRPFilter → Except SvcError (List DBRPMapping)
  idFromString : String → Except SvcError ID

/-- Embedding of `findOrganization` (server.go lines 202-220): the
`org` parameter, when present, fills the filter's ID if it parses as
an ID and its name otherwise; the `org_id` parameter, when present,
overwrites the filter's ID, failing immediately on a parse error;
then the organization directory is consulted once. -/
def WriteHandler.findOrganization (h : WriteHandler) (r : Request) :
    Except SvcError Organization :=
  let filter : OrganizationFilter := { id := none, name := none }
  let filter :=
    if r.org ≠ "" then
      match h.idFromString r.org with
      | Except.ok i => { filter with id := some i }
      | Except.error _ => { filter with name := some r.org }
    else filter
  if r.org_id ≠ "" then
    match h.idFromString r.org_id with
    | Except.error e => Except.error e
    | Except.ok i => h.orgSvcFindOrganization { filter with id := some i }
  else
    h.orgSvcFindOrganization filter

/-- Embedding of `findBucket` (server.go lines 222-240): when the
`bucket` parameter parses as an ID, look it up by ID within the
organization; a non-NotFound error stops there, a success returns the
bucket, and a NotFound falls through to the name lookup; when the
parameter is not an ID, go straight to the name lookup. -/
def WriteHandler.findBucket (h : WriteHandler) (r : Request) (orgID : ID) :
    Except SvcError Bucket :=
  match h.idFromString r.bucket with
  | Except.ok i =>
    match h.bucketSvcFindBucket { organizationID := some orgID, id := some i, name := none } with
    | Except.ok b => Except.ok b
    | Except.error e =>
      if e.isNotFound then
        h.bucketSvcFindBucket { organizationID := some orgID, id := none, name := some r.bucket }
      else
        Except.error e
  | Except.error _ =>
    h.bucketSvcFindBucket { organizationID := some orgID, id := none, name := some r.bucket }

/-- Embedding of `findTenantV2` (server.go lines 159-171). -/
def WriteHandler.findTenantV2 (h : WriteHandler) (r : Request) :
    Except SvcError (Organization × Bucket) :=
  match h.findOrganization r with
  | Except.error e => Except.error e
  | Except.ok org =>
    match h.findBucket r org.id with
    | Except.error e => Except.error e
    | Except.ok bucket => Except.ok (org, bucket)

/-- Embedding of `findTenantV1` (server.go lines 173-200): find the
DBRP mappings whose database and retention policy both match; any
count other than one is the `failed for find DBRP mapping` error; on
the single match, resolve the organization and the bucket by the IDs
stored in the mapping. -/
def WriteHandler.findTenantV1 (h : WriteHandler) (r : Request) :
    Except SvcError (Organization × Bucket) :=
  match h.dbrpSvcFindMany { database := some r.db, retentionPolicy := some r.rp } with
  | Except.error e => Except.error e
  | Except.ok dbrps =>
    match dbrps with
    | [m] =>
      match h.orgSvcFindOrganizationByID m.organizationID with
      | Except.error e => Except.error e
      | Except.ok org =>
        match h.bucketSvcFindBucketByID m.bucketID with
        | Except.error e => Except.error e
        | Except.ok bucket => Except.ok (org, bucket)
    | _ => Except.error (SvcError.dbrpNotUnique r.db r.rp)

/-- Embedding of the tenant-resolution block of `handleWrite`
(server.go lines 101-109): try the current scheme; on its failure try
the legacy scheme; if that also fails, surface the current scheme's
error `err`, not the legacy `v1err`. -/
def WriteHandler.resolveTenant (h : WriteHandler) (r : Request) :
    Except SvcError (Organization × Bucket) :=
  match h.findTenantV2 r with
  | Except.ok t => Except.ok t
  | Except.error e =>
    match h.findTenantV1 r with
    | Except.ok t => Except.ok t
    | Except.error _ => Except.error e

/-! ## Parse-and-dispatch outcome (`handleWrite`, server.go lines 112-129) -/

/-- A decoded line-protocol point.  `models.Point` is external and
opaque to the claims, which only count points. -/
structure Point where
  raw : String
deriving DecidableEq

/-- The three boundary outcomes `handleWrite` can produce after tenant
resolution: `w.WriteHeader(http.StatusOK)` for the empty-body case,
`w.WriteHeader(http.StatusNoContent)` for an accepted write, and
`h.api.Err(w, r, err)` for a failure. -/
inductive WriteOutcome where
  | statusOK
  | statusNoContent
  | failed (msg : String)
deriving DecidableEq

/-- Embedding of the parse-and-write tail of `handleWrite` (server.go
lines 112-129).  `parsed` is what `parsePoints` returned: the point
list together with `some` error message (Go `err.Error()`) or `none`;
`writePoints` is the external `writeSvc.WritePoints`, returning `some`
message on failure.  An error whose message is `EOF` with zero points
parsed yields `StatusOK`; any other error is surfaced; otherwise the
points are written and success is `StatusNoContent`. -/
def dispatchParsedWrite (parsed : List Point × Option String)
    (writePoints : List Point → Option String) : WriteOutcome :=
  match parsed.2 with
  | some errMsg =>
    if errMsg = "EOF" ∧ parsed.1.length = 0 then WriteOutcome.statusOK
    else WriteOutcome.failed errMsg
  | none =>
    match writePoints parsed.1 with
    | some errMsg => WriteOutcome.failed errMsg
    | none => WriteOutcome.statusNoContent

/-! ## Typed block codec family (arrays.gen.go.tmpl)

The template instantiates one variant per value type; the embedding is
polymorphic in the value type `α`, covering every generated variant
uniformly.  `cursors.XArray` is a pair of Go slices; a slice value is
observed through its elements, so each is embedded as a list. -/

/-- Embedding of a `cursors.XArray`: parallel timestamp and value columns. -/
structure TypedArray (α : Type) where
  timestamps : List Int
  values : List α
deriving DecidableEq

/-- Go's `s[:0]` on a slice: truncation to the first `n` elements
(the retained backing capacity is unobservable through the slice). -/
def sliceTruncate {α : Type} (xs : List α) (n : Nat) : List α :=
  xs.take n

/-- Embedding of `new{X}ArrayLen(sz)` (template lines 19-26):
`make([]int64, sz)` and `make([]T, sz)` allocate `sz` zero-valued
elements; `default` stands for Go's zero value of the type. -/
def newArrayLen (α : Type) [Inhabited α] (sz : Nat) : TypedArray α :=
  { timestamps := List.replicate sz 0, values := List.replicate sz default }

/-- Embedding of `(a *{x}Array) Copy(dst)` (template lines 32-35):
`dst.Timestamps = append(dst.Timestamps[:0], a.Timestamps...)` and the
same for `Values`.  The destination's slices are truncated to length
zero and the source's elements appended; the new destination value is
returned (Go mutates `dst` in place; the embedding passes state
explicitly). -/
def TypedArray.Copy {α : Type} (a : TypedArray α) (dst : TypedArray α) : TypedArray α :=
  { timestamps := sliceTruncate dst.timestamps 0 ++ a.timestamps,
    values := sliceTruncate dst.values 0 ++ a.values }

/-- Embedding of `(a *{x}Array) Encode(b)` (template lines 28-30): the
codec hands the array and the existing buffer to the external
`tsm1.Encode{X}ArrayBlock` and returns its result unchanged; the
encoder is a parameter because it is outside this core. -/
def TypedArray.Encode {α : Type} (a : TypedArray α)
    (encodeBlock : TypedArray α → List Nat → Except String (List Nat))
    (b : List Nat) : Except String (List Nat) :=
  encodeBlock a b

/-! ## Concrete fixtures for witnesses and counterexamples -/

/-- A concrete stand-in for `influxdb.IDFromString`: two fixed strings
parse, everything else is an ID-format error. -/
def demoIdFromString (s : String) : Except SvcError ID :=
  if s = "aaaabbbbccccdddd" then Except.ok 1
  else if s = "1111222233334444" then Except.ok 2
  else Except.error (SvcError.invalidID s)

/-- A concrete organization used by the fixtures. -/
def demoOrg : Organization := { id := 1, name := "acme" }

/-- A concrete bucket belonging to `demoOrg`. -/
def demoBucket : Bucket := { id := 2, name := "metrics", orgID := 1 }

/-- A concrete legacy mapping pointing at `demoOrg` and `demoBucket`. -/
def demoMapping : DBRPMapping :=
  { database := "mydb", retentionPolicy := "autogen", organizationID := 1, bucketID := 2 }

/-- A handler whose directories hold exactly `demoOrg`, `demoBucket`
and `demoMapping`. -/
def demoHandler : WriteHandler :=
  { orgSvcFindOrganization := fun f =>
      if f.id = some 1 ∨ f.name = some "acme" then Except.ok demoOrg
      else Except.error (SvcError.notFound "organization not found")
    orgSvcFindOrganizationByID := fun i =>
      if i = 1 then Except.ok demoOrg
      else Except.error (SvcError.notFound "organization not found")
    bucketSvcFindBucket := fun f =>
      if f.id = some 2 ∨ f.name = some "metrics" then Except.ok demoBucket
      else Except.error (SvcError.notFound "bucket not found")
    bucketSvcFindBucketByID := fun i =>
      if i = 2 then Except.ok demoBucket
      else Except.error (SvcError.notFound "bucket not found")
    dbrpSvcFindMany := fun f =>
      if f.database = some "mydb" ∧ f.retentionPolicy = some "autogen" then
        Except.ok [demoMapping]
      else Except.ok []
    idFromString := demoIdFromString }

/-- A handler whose DBRP directory has exactly one matching mapping
but whose organization and bucket directories fail every lookup. -/
def downDirHandler : WriteHandler :=
  { orgSvcFindOrganization := fun _ => Except.error (SvcError.serviceFailure "org directory down")
    orgSvcFindOrganizationByID := fun _ => Except.error (SvcError.serviceFailure "org directory down")
    bucketSvcFindBucket := fun _ => Except.error (SvcError.serviceFailure "bucket directory down")
    bucketSvcFindBucketByID := fun _ => Except.error (SvcError.serviceFailure "bucket directory down")
    dbrpSvcFindMany := fun _ => Except.ok [demoMapping]
    idFromString := demoIdFromString }

/-- A request using only the legacy `db`/`rp` parameters. -/
def demoLegacyRequest : Request :=
  { org := "", org_id := "", bucket := "", db := "mydb", rp := "autogen" }

/-- A request naming org and bucket by name (neither parses as an ID). -/
def demoNameRequest : Request :=
  { org := "acme", org_id := "", bucket := "metrics", db := "", rp := "" }

/-- A request whose legacy parameters match no mapping and whose
current-scheme parameters are absent. -/
def demoBothFailRequest : Request :=
  { org := "", org_id := "", bucket := "", db := "otherdb", rp := "autogen" }

/-- A handler whose bucket directory answers NotFound to every
ID-scoped lookup but resolves the ID string as a bucket name. -/
def idAsNameBucketHandler : WriteHandler :=
  { demoHandler with
      bucketSvcFindBucket := fun f =>
        if f.id.isSome then Except.error (SvcError.notFound "bucket not found")
        else if f.name = some "1111222233334444" then Except.ok demoBucket
        else Except.error (SvcError.notFound "bucket not found") }

/-- A handler whose bucket directory fails every lookup with a
non-NotFound error. -/
def failingBucketHandler : WriteHandler :=
  { demoHandler with
      bucketSvcFindBucket := fun _ =>
        Except.error (SvcError.serviceFailure "bucket directory down") }

/-- A request whose `bucket` parameter is a well-formed ID string. -/
def demoBucketIdRequest : Request :=
  { org := "acme", org_id := "", bucket := "1111222233334444", db := "", rp := "" }

/-! ## Theorems -/

/-- C1, counterexample: the claim says the tokens `m` and `h` pass
through normalization unchanged, but `handleWrite`'s first `switch`
rejects both — they reach its `default` branch (error message
`use ns, us, ms or s`) and never reach the second stage that lists
them. -/
theorem normalizePrecision_rejects_m_and_h :
    normalizePrecision "m" = Except.error (PrecisionError.firstStage "m") ∧
    normalizePrecision "h" = Except.error (PrecisionError.firstStage "h") :=
  ⟨rfl, rfl⟩

/-- C1, amended: the tokens `""`, `ns`, `us`, `ms`, `s` normalize to
`""`, `n`, `u`, `ms`, `s` respectively, and every other token —
including `m` and `h` — fails with the first-stage InvalidPrecision
error. -/
theorem normalizePrecision_spec (p : String)
    (hp : ¬ (p = "" ∨ p = "ns" ∨ p = "us" ∨ p = "ms" ∨ p = "s")) :
    normalizePrecision "" = Except.ok "" ∧
    normalizePrecision "ns" = Except.ok "n" ∧
    normalizePrecision "us" = Except.ok "u" ∧
    normalizePrecision "ms" = Except.ok "ms" ∧
    normalizePrecision "s" = Except.ok "s" ∧
    normalizePrecision p = Except.error (PrecisionError.firstStage p) := by
  refine ⟨rfl, rfl, rfl, rfl, rfl, ?_⟩
  push_neg at hp
  obtain ⟨h0, h1, h2, h3, h4⟩ := hp
  simp [normalizePrecision, h0, h1, h2, h3, h4]

/-- C1, witness: the amended statement instantiated at the token `m`. -/
theorem normalizePrecision_spec_witness :
    ¬ ("m" = "" ∨ "m" = "ns" ∨ "m" = "us" ∨ "m" = "ms" ∨ "m" = "s") ∧
    normalizePrecision "m" = Except.error (PrecisionError.firstStage "m") := by
  have hp : ¬ ("m" = "" ∨ "m" = "ns" ∨ "m" = "us" ∨ "m" = "ms" ∨ "m" = "s") := by
    simp
  exact ⟨hp, (normalizePrecision_spec "m" hp).2.2.2.2.2⟩

/-- C9: the second validation stage's failure branch is unreachable —
every input either succeeds or already fails at the first stage, so
the second-stage InvalidPrecision error is never returned. -/
theorem normalizePrecision_second_stage_unreachable (p : String) :
    (∃ q, normalizePrecision p = Except.ok q) ∨
    normalizePrecision p = Except.error (PrecisionError.firstStage p) := by
  by_cases h1 : p = "ns"
  · subst h1; exact Or.inl ⟨"n", rfl⟩
  · by_cases h2 : p = "us"
    · subst h2; exact Or.inl ⟨"u", rfl⟩
    · by_cases h3 : p = "ms" ∨ p = "s" ∨ p = ""
      · rcases h3 with h | h | h <;> subst h
        · exact Or.inl ⟨"ms", rfl⟩
        · exact Or.inl ⟨"s", rfl⟩
        · exact Or.inl ⟨"", rfl⟩
      · exact Or.inr (by simp [normalizePrecision, h1, h2, h3])

/-- Helper: `findTenantV2` only consults the filter-based directory
lookups and the ID parser, so replacing the legacy-path services
(`dbrpSvcFindMany` and the by-ID lookups) cannot change its result. -/
theorem findTenantV2_ignores_legacy_services (h : WriteHandler) (r : Request)
    (fm : DBRPFilter → Except SvcError (List DBRPMapping))
    (fo : ID → Except SvcError Organization)
    (fb : ID → Except SvcError Bucket) :
    WriteHandler.findTenantV2
      { h with dbrpSvcFindMany := fm, orgSvcFindOrganizationByID := fo,
               bucketSvcFindBucketByID := fb } r = h.findTenantV2 r := rfl

/-- C2: the legacy scheme is attempted only when the current scheme
fails — when `findTenantV2` succeeds, the handler's result is that
success whatever the legacy-path services would answer — and when both
schemes fail, the surfaced error is the current scheme's `err`, never
the legacy `v1err`. -/
theorem resolveTenant_scheme_precedence (h : WriteHandler) (r : Request) :
    (∀ t, h.findTenantV2 r = Except.ok t →
      ∀ (fm : DBRPFilter → Except SvcError (List DBRPMapping))
        (fo : ID → Except SvcError Organization)
        (fb : ID → Except SvcError Bucket),
        WriteHandler.resolveTenant
          { h with dbrpSvcFindMany := fm, orgSvcFindOrganizationByID := fo,
                   bucketSvcFindBucketByID := fb } r = Except.ok t) ∧
    (∀ e e2, h.findTenantV2 r = Except.error e → h.findTenantV1 r = Except.error e2 →
      h.resolveTenant r = Except.error e) := by
  constructor
  · intro t ht fm fo fb
    have hv2 := (findTenantV2_ignores_legacy_services h r fm fo fb).trans ht
    simp [WriteHandler.resolveTenant, hv2]
  · intro e e2 hv2 hv1
    simp [WriteHandler.resolveTenant, hv2, hv1]

/-- C2, witness: with the demo directories, a request resolvable by
the current scheme succeeds even when every legacy-path service is
down, and a request failing both schemes surfaces the current scheme's
organization-not-found error rather than the legacy DBRP error. -/
theorem resolveTenant_scheme_precedence_witness :
    (WriteHandler.resolveTenant
      { demoHandler with
          dbrpSvcFindMany := fun _ => Except.error (SvcError.serviceFailure "legacy down"),
          orgSvcFindOrganizationByID := fun _ => Except.error (SvcError.serviceFailure "legacy down"),
          bucketSvcFindBucketByID := fun _ => Except.error (SvcError.serviceFailure "legacy down") }
      demoNameRequest = Except.ok (demoOrg, demoBucket)) ∧
    (demoHandler.findTenantV2 demoBothFailRequest
        = Except.error (SvcError.notFound "organization not found") ∧
     demoHandler.findTenantV1 demoBothFailRequest
        = Except.error (SvcError.dbrpNotUnique "otherdb" "autogen") ∧
     demoHandler.resolveTenant demoBothFailRequest
        = Except.error (SvcError.notFound "organization not found")) :=
  ⟨(resolveTenant_scheme_precedence demoHandler demoNameRequest).1 (demoOrg, demoBucket) rfl _ _ _,
   rfl, rfl,
   (resolveTenant_scheme_precedence demoHandler demoBothFailRequest).2 _ _ rfl rfl⟩

/-- C3, counterexample: the claimed "if and only if" fails — here the
DBRP lookup returns exactly one match, yet legacy resolution fails,
because the organization directory errors on the mapping's stored ID. -/
theorem findTenantV1_single_match_can_fail :
    downDirHandler.dbrpSvcFindMany
        { database := some "mydb", retentionPolicy := some "autogen" }
      = Except.ok [demoMapping] ∧
    downDirHandler.findTenantV1 demoLegacyRequest
      = Except.error (SvcError.serviceFailure "org directory down") :=
  ⟨rfl, rfl⟩

/-- C3, amended: legacy resolution succeeds only if the DBRP lookup
returns exactly one match (zero or more than one yields the
DBRP-mapping error); on the single match it resolves the Organization
and the Bucket by the IDs stored in the mapping, succeeding exactly
when those two by-ID lookups succeed. -/
theorem findTenantV1_spec (h : WriteHandler) (r : Request) :
    (∀ dbrps, h.dbrpSvcFindMany { database := some r.db, retentionPolicy := some r.rp }
        = Except.ok dbrps → dbrps.length ≠ 1 →
      h.findTenantV1 r = Except.error (SvcError.dbrpNotUnique r.db r.rp)) ∧
    (∀ t, h.findTenantV1 r = Except.ok t →
      ∃ m, h.dbrpSvcFindMany { database := some r.db, retentionPolicy := some r.rp }
              = Except.ok [m] ∧
           h.orgSvcFindOrganizationByID m.organizationID = Except.ok t.1 ∧
           h.bucketSvcFindBucketByID m.bucketID = Except.ok t.2) ∧
    (∀ m org bucket,
      h.dbrpSvcFindMany { database := some r.db, retentionPolicy := some r.rp }
          = Except.ok [m] →
      h.orgSvcFindOrganizationByID m.organizationID = Except.ok org →
      h.bucketSvcFindBucketByID m.bucketID = Except.ok bucket →
      h.findTenantV1 r = Except.ok (org, bucket)) := by
  refine ⟨?_, ?_, ?_⟩
  · intro dbrps hq hlen
    rcases dbrps with _ | ⟨m, _ | ⟨m2, rest⟩⟩
    · simp [WriteHandler.findTenantV1, hq]
    · exact absurd rfl hlen
    · simp [WriteHandler.findTenantV1, hq]
  · intro t ht
    cases hq : h.dbrpSvcFindMany { database := some r.db, retentionPolicy := some r.rp } with
    | error e =>
      have hv : h.findTenantV1 r = Except.error e := by
        simp [WriteHandler.findTenantV1, hq]
      rw [hv] at ht; exact absurd ht (by simp)
    | ok dbrps =>
      rcases dbrps with _ | ⟨m, _ | ⟨m2, rest⟩⟩
      · have hv : h.findTenantV1 r = Except.error (SvcError.dbrpNotUnique r.db r.rp) := by
          simp [WriteHandler.findTenantV1, hq]
        rw [hv] at ht; exact absurd ht (by simp)
      · refine ⟨m, rfl, ?_⟩
        cases ho : h.orgSvcFindOrganizationByID m.organizationID with
        | error e =>
          have hv : h.findTenantV1 r = Except.error e := by
            simp [WriteHandler.findTenantV1, hq, ho]
          rw [hv] at ht; exact absurd ht (by simp)
        | ok org =>
          cases hb : h.bucketSvcFindBucketByID m.bucketID with
          | error e =>
            have hv : h.findTenantV1 r = Except.error e := by
              simp [WriteHandler.findTenantV1, hq, ho, hb]
            rw [hv] at ht; exact absurd ht (by simp)
          | ok bucket =>
            have hv : h.findTenantV1 r = Except.ok (org, bucket) := by
              simp [WriteHandler.findTenantV1, hq, ho, hb]
            rw [hv] at ht
            simp only [Except.ok.injEq] at ht
            subst ht
            exact ⟨rfl, rfl⟩
      · have hv : h.findTenantV1 r = Except.error (SvcError.dbrpNotUnique r.db r.rp) := by
          simp [WriteHandler.findTenantV1, hq]
        rw [hv] at ht; exact absurd ht (by simp)
  · intro m org bucket hq ho hb
    simp [WriteHandler.findTenantV1, hq, ho, hb]

/-- C3, witness: the amended statement exercised on the demo
directories — a legacy request with a unique mapping resolves to the
mapping's organization and bucket, and a legacy request matching zero
mappings fails with the DBRP-mapping error. -/
theorem findTenantV1_spec_witness :
    demoHandler.findTenantV1 demoLegacyRequest = Except.ok (demoOrg, demoBucket) ∧
    (∃ m, demoHandler.dbrpSvcFindMany
            { database := some demoLegacyRequest.db,
              retentionPolicy := some demoLegacyRequest.rp } = Except.ok [m] ∧
          demoHandler.orgSvcFindOrganizationByID m.organizationID = Except.ok demoOrg ∧
          demoHandler.bucketSvcFindBucketByID m.bucketID = Except.ok demoBucket) ∧
    demoHandler.findTenantV1 demoBothFailRequest
      = Except.error (SvcError.dbrpNotUnique "otherdb" "autogen") :=
  ⟨(findTenantV1_spec demoHandler demoLegacyRequest).2.2 demoMapping demoOrg demoBucket rfl rfl rfl,
   (findTenantV1_spec demoHandler demoLegacyRequest).2.1 (demoOrg, demoBucket) rfl,
   (findTenantV1_spec demoHandler demoBothFailRequest).1 [] rfl (by simp)⟩

/-- C4: when the `bucket` parameter parses as an ID, `findBucket`
first looks it up by ID scoped to the resolved organization; a success
is returned as-is, a NotFound error falls back to the name lookup in
the same scope, and any non-NotFound error is returned without
attempting the name fallback. -/
theorem findBucket_id_then_name_fallback (h : WriteHandler) (r : Request)
    (orgID : ID) (i : ID) (hid : h.idFromString r.bucket = Except.ok i) :
    (∀ b, h.bucketSvcFindBucket { organizationID := some orgID, id := some i, name := none }
        = Except.ok b → h.findBucket r orgID = Except.ok b) ∧
    (∀ e, h.bucketSvcFindBucket { organizationID := some orgID, id := some i, name := none }
        = Except.error e →
      (e.isNotFound = true →
        h.findBucket r orgID
          = h.bucketSvcFindBucket { organizationID := some orgID, id := none, name := some r.bucket }) ∧
      (e.isNotFound = false → h.findBucket r orgID = Except.error e)) := by
  refine ⟨?_, ?_⟩
  · intro b hb
    simp [WriteHandler.findBucket, hid, hb]
  · intro e he
    constructor
    · intro hnf
      simp [WriteHandler.findBucket, hid, he, hnf]
    · intro hnf
      simp [WriteHandler.findBucket, hid, he, hnf]

/-- C4, witness: the three branches exercised at the ID-string bucket
parameter — a successful ID lookup, a NotFound ID lookup falling back
to the name lookup, and a non-NotFound failure propagated without
fallback. -/
theorem findBucket_id_then_name_fallback_witness :
    demoHandler.findBucket demoBucketIdRequest 1 = Except.ok demoBucket ∧
    idAsNameBucketHandler.findBucket demoBucketIdRequest 1
      = idAsNameBucketHandler.bucketSvcFindBucket
          { organizationID := some 1, id := none, name := some "1111222233334444" } ∧
    failingBucketHandler.findBucket demoBucketIdRequest 1
      = Except.error (SvcError.serviceFailure "bucket directory down") :=
  ⟨(findBucket_id_then_name_fallback demoHandler demoBucketIdRequest 1 2 rfl).1
      demoBucket rfl,
   ((findBucket_id_then_name_fallback idAsNameBucketHandler demoBucketIdRequest 1 2 rfl).2
      (SvcError.notFound "bucket not found") rfl).1 rfl,
   ((findBucket_id_then_name_fallback failingBucketHandler demoBucketIdRequest 1 2 rfl).2
      (SvcError.serviceFailure "bucket directory down") rfl).2 rfl⟩

/-- C5: for a non-empty `org_id`, a well-formed value becomes the
organization filter's ID — whatever ID the `org` parameter may have
contributed is overwritten, only a name it contributed can remain —
and a malformed value fails immediately with the ID-format error,
before (and independently of) any directory lookup. -/
theorem findOrganization_org_id_precedence (h : WriteHandler) (r : Request)
    (hne : r.org_id ≠ "") :
    (∀ i, h.idFromString r.org_id = Except.ok i →
      ∃ nm, h.findOrganization r = h.orgSvcFindOrganization { id := some i, name := nm }) ∧
    (∀ e, h.idFromString r.org_id = Except.error e →
      ∀ f, WriteHandler.findOrganization { h with orgSvcFindOrganization := f } r
        = Except.error e) := by
  constructor
  · intro i hi
    by_cases ho : r.org = ""
    · exact ⟨none, by simp [WriteHandler.findOrganization, ho, hne, hi]⟩
    · cases hp : h.idFromString r.org with
      | ok j => exact ⟨none, by simp [WriteHandler.findOrganization, ho, hne, hi, hp]⟩
      | error e2 => exact ⟨some r.org, by simp [WriteHandler.findOrganization, ho, hne, hi, hp]⟩
  · intro e he f
    by_cases ho : r.org = ""
    · simp [WriteHandler.findOrganization, ho, hne, he]
    · cases hp : h.idFromString r.org with
      | ok j => simp [WriteHandler.findOrganization, ho, hne, he, hp]
      | error e2 => simp [WriteHandler.findOrganization, ho, hne, he, hp]

/-- C5, witness: with `org=acme` (a name) and a well-formed `org_id`,
the directory is consulted with the parsed ID; with a malformed
`org_id`, resolution fails with the ID-format error for every
organization directory. -/
theorem findOrganization_org_id_precedence_witness :
    (∃ nm, demoHandler.findOrganization
        { org := "acme", org_id := "aaaabbbbccccdddd", bucket := "", db := "", rp := "" }
      = demoHandler.orgSvcFindOrganization { id := some 1, name := nm }) ∧
    WriteHandler.findOrganization
        { demoHandler with
            orgSvcFindOrganization := fun _ => Except.ok demoOrg }
        { org := "acme", org_id := "zzz", bucket := "", db := "", rp := "" }
      = Except.error (SvcError.invalidID "zzz") :=
  ⟨(findOrganization_org_id_precedence demoHandler
      { org := "acme", org_id := "aaaabbbbccccdddd", bucket := "", db := "", rp := "" }
      (by simp)).1 1 rfl,
   (findOrganization_org_id_precedence demoHandler
      { org := "acme", org_id := "zzz", bucket := "", db := "", rp := "" }
      (by simp)).2 (SvcError.invalidID "zzz") rfl
      (fun _ => Except.ok demoOrg)⟩

/-- C10: when `org_id` is absent, organization resolution always
reaches the directory lookup — there is some filter it consults — and
a non-empty `org` value that does not parse as an ID is passed on as
the filter's name, not rejected with a format error. -/
theorem findOrganization_org_name_no_format_failure (h : WriteHandler) (r : Request)
    (hoid : r.org_id = "") :
    (∃ flt, h.findOrganization r = h.orgSvcFindOrganization flt) ∧
    (∀ e, r.org ≠ "" → h.idFromString r.org = Except.error e →
      h.findOrganization r
        = h.orgSvcFindOrganization { id := none, name := some r.org }) := by
  constructor
  · by_cases ho : r.org = ""
    · exact ⟨{ id := none, name := none }, by simp [WriteHandler.findOrganization, ho, hoid]⟩
    · cases hp : h.idFromString r.org with
      | ok j =>
        exact ⟨{ id := some j, name := none },
          by simp [WriteHandler.findOrganization, ho, hoid, hp]⟩
      | error e2 =>
        exact ⟨{ id := none, name := some r.org },
          by simp [WriteHandler.findOrganization, ho, hoid, hp]⟩
  · intro e ho hp
    simp [WriteHandler.findOrganization, ho, hoid, hp]

/-- C10, witness: `org=acme` does not parse as an ID and `org_id` is
absent; resolution consults the directory with the name filter and
succeeds on the demo directory. -/
theorem findOrganization_org_name_no_format_failure_witness :
    demoHandler.findOrganization demoNameRequest
        = demoHandler.orgSvcFindOrganization { id := none, name := some "acme" } ∧
    demoHandler.findOrganization demoNameRequest = Except.ok demoOrg :=
  ⟨(findOrganization_org_name_no_format_failure demoHandler demoNameRequest rfl).2
      (SvcError.invalidID "acme") (by simp [demoNameRequest]) rfl,
   ((findOrganization_org_name_no_format_failure demoHandler demoNameRequest rfl).2
      (SvcError.invalidID "acme") (by simp [demoNameRequest]) rfl).trans rfl⟩

/-- C6: a parse result whose error message is `EOF` with zero points
produced yields the `StatusOK` outcome; any other parse error — and in
particular `EOF` with at least one point produced — is surfaced as a
failure; a parse success followed by a successful write yields
`StatusNoContent`; and the two success outcomes are distinct at the
boundary. -/
theorem dispatchParsedWrite_outcomes (ps : List Point)
    (writePoints : List Point → Option String) :
    (ps.length = 0 → dispatchParsedWrite (ps, some "EOF") writePoints = WriteOutcome.statusOK) ∧
    (∀ e : String, (e = "EOF" → ps.length ≠ 0) →
      dispatchParsedWrite (ps, some e) writePoints = WriteOutcome.failed e) ∧
    (writePoints ps = none →
      dispatchParsedWrite (ps, none) writePoints = WriteOutcome.statusNoContent) ∧
    WriteOutcome.statusOK ≠ WriteOutcome.statusNoContent := by
  refine ⟨?_, ?_, ?_, by simp⟩
  · intro hlen
    simp [dispatchParsedWrite, hlen]
  · intro e he
    by_cases heof : e = "EOF"
    · subst heof
      simp [dispatchParsedWrite, he rfl]
    · simp [dispatchParsedWrite, heof]
  · intro hw
    simp [dispatchParsedWrite, hw]

/-- C6, witness: the outcome computation at concrete inputs — an `EOF`
with no points is `StatusOK`, an `EOF` after one point is a failure, a
malformed payload is a failure, and an accepted write of one point is
`StatusNoContent`. -/
theorem dispatchParsedWrite_outcomes_witness :
    dispatchParsedWrite ([], some "EOF") (fun _ => none) = WriteOutcome.statusOK ∧
    dispatchParsedWrite ([{ raw := "cpu idle=3" }], some "EOF") (fun _ => none)
      = WriteOutcome.failed "EOF" ∧
    dispatchParsedWrite ([], some "unable to parse") (fun _ => none)
      = WriteOutcome.failed "unable to parse" ∧
    dispatchParsedWrite ([{ raw := "cpu idle=3" }], none) (fun _ => none)
      = WriteOutcome.statusNoContent :=
  ⟨(dispatchParsedWrite_outcomes [] (fun _ => none)).1 rfl,
   (dispatchParsedWrite_outcomes [{ raw := "cpu idle=3" }] (fun _ => none)).2.1
      "EOF" (fun _ => by simp),
   (dispatchParsedWrite_outcomes [] (fun _ => none)).2.1
      "unable to parse" (by simp),
   (dispatchParsedWrite_outcomes [{ raw := "cpu idle=3" }] (fun _ => none)).2.2.1 rfl⟩

/-- Helper: with slice semantics, `Copy` makes the destination equal
to the source, whatever the destination held before. -/
theorem typedArray_copy_eq_source {α : Type} (a dst : TypedArray α) :
    a.Copy dst = a := by
  cases a
  simp [TypedArray.Copy, sliceTruncate]

/-- C7: `Copy` into any destination — pre-populated or not — leaves
the destination's Timestamps and Values exactly equal to the source's
(the source, passed by value in the embedding, is untouched), and a
chain of copies from sources of lengths `N1`, `N2 < N1`, `N3 > N2`
into one destination leaves it equal to the last source, of length
exactly `N3`, with no residue of the earlier copies. -/
theorem typedArray_copy_exact {α : Type} (a dst : TypedArray α)
    (a1 a2 a3 : TypedArray α)
    (h21 : a2.timestamps.length < a1.timestamps.length)
    (h32 : a2.timestamps.length < a3.timestamps.length) :
    ((a.Copy dst).timestamps = a.timestamps ∧ (a.Copy dst).values = a.values) ∧
    a3.Copy (a2.Copy (a1.Copy dst)) = a3 ∧
    (a3.Copy (a2.Copy (a1.Copy dst))).timestamps.length = a3.timestamps.length ∧
    (a3.Copy (a2.Copy (a1.Copy dst))).values.length = a3.values.length := by
  refine ⟨?_, ?_, ?_, ?_⟩ <;>
    simp [typedArray_copy_eq_source]

/-- C7, witness: the chained-copy statement at concrete arrays of
lengths 2, 1 and 3. -/
theorem typedArray_copy_exact_witness :
    (1 : Nat) < 2 ∧ (1 : Nat) < 3 ∧
    TypedArray.Copy { timestamps := [7, 8, 9], values := [(70 : Int), 80, 90] }
      (TypedArray.Copy { timestamps := [5], values := [(50 : Int)] }
        (TypedArray.Copy { timestamps := [1, 2], values := [(10 : Int), 20] }
          { timestamps := [0, 0, 0, 0], values := [(0 : Int), 0, 0, 0] }))
      = { timestamps := [7, 8, 9], values := [(70 : Int), 80, 90] } := by
  refine ⟨by decide, by decide, ?_⟩
  exact (typedArray_copy_exact
    { timestamps := [7, 8, 9], values := [(70 : Int), 80, 90] }
    { timestamps := [0, 0, 0, 0], values := [(0 : Int), 0, 0, 0] }
    { timestamps := [1, 2], values := [(10 : Int), 20] }
    { timestamps := [5], values := [(50 : Int)] }
    { timestamps := [7, 8, 9], values := [(70 : Int), 80, 90] }
    (by decide) (by decide)).2.1

/-- C8: the equal-length invariant through every codec operation —
`new{X}ArrayLen(sz)` allocates both columns at exactly `sz`, `Copy`
yields an equal-length destination whenever the source's columns have
equal length, and `Encode` only forwards the array to the external
block encoder, returning its buffer and touching no column. -/
theorem typedArray_equal_length_invariant (α : Type) [Inhabited α] (sz : Nat)
    (a dst : TypedArray α) (hsrc : a.timestamps.length = a.values.length) :
    ((newArrayLen α sz).timestamps.length = sz ∧ (newArrayLen α sz).values.length = sz) ∧
    (a.Copy dst).timestamps.length = (a.Copy dst).values.length ∧
    (∀ (encodeBlock : TypedArray α → List Nat → Except String (List Nat)) (b : List Nat),
      a.Encode encodeBlock b = encodeBlock a b) := by
  refine ⟨⟨?_, ?_⟩, ?_, fun _ _ => rfl⟩ <;>
    simp [newArrayLen, TypedArray.Copy, sliceTruncate, hsrc]

/-- C8, witness: the invariant at a concrete size and concrete
equal-length arrays. -/
theorem typedArray_equal_length_invariant_witness :
    ((newArrayLen Int 3).timestamps.length = 3 ∧ (newArrayLen Int 3).values.length = 3) ∧
    (TypedArray.Copy { timestamps := [1, 2], values := [(10 : Int), 20] }
        { timestamps := [9], values := [(90 : Int)] }).timestamps.length
      = (TypedArray.Copy { timestamps := [1, 2], values := [(10 : Int), 20] }
          { timestamps := [9], values := [(90 : Int)] }).values.length :=
  ⟨(typedArray_equal_length_invariant Int 3
      { timestamps := [1, 2], values := [(10 : Int), 20] }
      { timestamps := [9], values := [(90 : Int)] } rfl).1,
   (typedArray_equal_length_invariant Int 3
      { timestamps := [1, 2], values := [(10 : Int), 20] }
      { timestamps := [9], values := [(90 : Int)] } rfl).2.1⟩

end Influx
